import Mathlib

/-!
Shallow embedding of `src/main.py` of the AphiniTi-Profile-Answers service:
a FastAPI application storing per-user, per-question answer documents in
Firestore.  The document store is modelled as association lists, Firestore
timestamps as natural numbers (the value returned by `datetime.utcnow()` is
passed in as a parameter `now`), and each HTTP handler as a pure function
from the authenticated user id, the parsed request and the current store to
a result (`Except Err response`), the resulting store, and the list of
document-store operations it performed, in order.
-/

namespace AphinitiAnswers

/-- An HTTPException: status code and detail string. -/
structure Err where
  status : Nat
  detail : String
deriving Repr, DecidableEq

/-- A per-question answer document, as written by the handlers
(`answer_data` in `save_question_answer` / `save_bulk_answers`). -/
structure AnswerDoc where
  question_id : Int
  question_text : String
  answer : String
  created_at : Nat
  updated_at : Nat
deriving Repr, DecidableEq

/-- The per-user summary document written by `update_user_summary`. -/
structure Summary where
  user_id : String
  total_answers : Nat
  last_updated : Nat
deriving Repr, DecidableEq

/-- The Firestore state relevant to this service: the documents of the
`questions` sub-collection of each `ai_answers/{user_id}` document, keyed
by (user id, stringified question id), plus the per-user summary fields of
the `ai_answers/{user_id}` documents themselves. -/
structure Store where
  questions : List (String × String × AnswerDoc)
  summaries : List (String × Summary)
deriving Repr, DecidableEq

/-- The empty store. -/
def Store.empty : Store := ⟨[], []⟩

/-- `answer_doc_ref.get()`: read the sub-document at
`ai_answers/{u}/questions/{k}`, if it exists. -/
def Store.getDoc (s : Store) (u k : String) : Option AnswerDoc :=
  (s.questions.find? (fun e => e.1 == u && e.2.1 == k)).map (fun e => e.2.2)

/-- `answer_doc_ref.set(data)` (also one entry of a batch commit): write the
sub-document at `ai_answers/{u}/questions/{k}`, replacing any existing one. -/
def Store.setDoc (s : Store) (u k : String) (d : AnswerDoc) : Store :=
  if s.questions.any (fun e => e.1 == u && e.2.1 == k) then
    { s with questions :=
        s.questions.map (fun e => if e.1 == u && e.2.1 == k then (u, k, d) else e) }
  else
    { s with questions := s.questions ++ [(u, k, d)] }

/-- `questions_ref.stream()`: all answer documents of user `u`. -/
def Store.streamDocs (s : Store) (u : String) : List AnswerDoc :=
  (s.questions.filter (fun e => e.1 == u)).map (fun e => e.2.2)

/-- `user_doc_ref.set(summary_data, merge=True)`: write the summary fields
of `ai_answers/{u}`. -/
def Store.setSummary (s : Store) (u : String) (m : Summary) : Store :=
  if s.summaries.any (fun e => e.1 == u) then
    { s with summaries := s.summaries.map (fun e => if e.1 == u then (u, m) else e) }
  else
    { s with summaries := s.summaries ++ [(u, m)] }

/-- Summary document of user `u`, if any. -/
def Store.getSummary (s : Store) (u : String) : Option Summary :=
  (s.summaries.find? (fun e => e.1 == u)).map (fun e => e.2)

/-- The characters Python `str.strip()` removes (the ASCII whitespace
characters; the handlers only ever strip ASCII payloads). -/
def isPySpace (c : Char) : Bool :=
  c = ' ' || c = '\t' || c = '\n' || c = '\r' || c = '\x0b' || c = '\x0c'

/-- Python `s.strip()`: remove leading and trailing whitespace. -/
def pyStrip (s : String) : String :=
  ⟨((s.data.dropWhile isPySpace).reverse.dropWhile isPySpace).reverse⟩

/-- One operation against the document store, for tracing when a handler
touches Firestore. -/
inductive StoreOp
  | readDoc (user key : String)
  | streamDocs (user : String)
  | writeDoc (user key : String)
  | batchCommit (user : String) (n : Nat)
  | writeSummary (user : String)
deriving Repr, DecidableEq

/-- `update_user_summary(user_id)`: recount the user's answer documents and
merge the rollup into the user document.  Any exception raised inside is
caught and only logged (the `try/except` swallows it), so on failure the
function returns with the store unchanged; `refreshOk` says whether the
store operations inside succeed. -/
def update_user_summary (refreshOk : Bool) (uid : String) (now : Nat)
    (s : Store) : Store × List StoreOp :=
  if refreshOk then
    let total := (s.questions.filter (fun e => e.1 == uid)).length
    (s.setSummary uid ⟨uid, total, now⟩, [.streamDocs uid, .writeSummary uid])
  else
    (s, [])

/-- The body of `POST /api/question-answer` (model `QuestionAnswerRequest`). -/
structure QuestionAnswerRequest where
  question_id : Int
  question_text : String
  answer : String
  user_id : String
deriving Repr, DecidableEq

/-- The response model `QuestionAnswerResponse`. -/
structure QuestionAnswerResponse where
  success : Bool
  message : String
  question_id : Int
  question_text : String
  answer : String
  user_id : String
  saved_at : Nat
deriving Repr, DecidableEq

/-- Handler `save_question_answer`: ownership check, blank-field
validation, read-modify-write of the single answer document (preserving
`created_at` when the document already exists), then the best-effort
summary refresh. -/
def save_question_answer (authenticated_user_id : String)
    (request : QuestionAnswerRequest) (now : Nat) (refreshOk : Bool)
    (s : Store) :
    Except Err QuestionAnswerResponse × Store × List StoreOp :=
  if authenticated_user_id ≠ request.user_id then
    (.error ⟨403, "Cannot save answers for another user"⟩, s, [])
  else if pyStrip request.answer = "" then
    (.error ⟨400, "Answer cannot be empty"⟩, s, [])
  else if pyStrip request.question_text = "" then
    (.error ⟨400, "Question text cannot be empty"⟩, s, [])
  else
    let key := toString request.question_id
    let existing := s.getDoc request.user_id key
    let created : Nat :=
      match existing with
      | some old => old.created_at
      | none => now
    let doc : AnswerDoc :=
      ⟨request.question_id, pyStrip request.question_text, pyStrip request.answer,
        created, now⟩
    let s1 := s.setDoc request.user_id key doc
    let refreshed := update_user_summary refreshOk request.user_id now s1
    (.ok ⟨true, "Question answer saved successfully", request.question_id,
        request.question_text, request.answer, request.user_id, now⟩,
      refreshed.1,
      [.readDoc request.user_id key, .writeDoc request.user_id key]
        ++ refreshed.2)

/-- One element of the `answers` list of a bulk request.  In the source it
is a `Dict[str, Any]`; a field is `none` when the corresponding key is
absent from the dictionary. -/
structure BulkItem where
  question_id : Option Int
  question_text : Option String
  answer : Option String
deriving Repr, DecidableEq

/-- The body of `POST /api/bulk-answers` (model `BulkAnswersRequest`). -/
structure BulkAnswersRequest where
  answers : List BulkItem
  user_id : String
deriving Repr, DecidableEq

/-- The response model `UserAnswersResponse`. -/
structure UserAnswersResponse where
  success : Bool
  message : String
  user_id : String
  answers : Option (List AnswerDoc)
  total_answers : Option Nat
  created_at : Option Nat
  updated_at : Option Nat
deriving Repr, DecidableEq

/-- The `for answer_item in request.answers` loop of `save_bulk_answers`:
validates each item (raising 400 when one of the three required keys is
missing, which aborts the request before the batch is committed), skips
items whose `answer` is blank, and otherwise appends a `batch.set` entry
whose `created_at` is taken from the existing document when there is one.
Reads go against the store as it was when the request started (the batch
is not committed until after the loop).  Returns the accumulated batch
and the trace of document reads performed. -/
def bulkLoop (uid : String) (now : Nat) (s : Store) :
    List BulkItem → List (String × AnswerDoc) → List StoreOp →
    Except Err (List (String × AnswerDoc)) × List StoreOp
  | [], batch, tr => (.ok batch, tr)
  | item :: rest, batch, tr =>
    match item.question_id, item.question_text, item.answer with
    | some qid, some qtext, some ans =>
      if pyStrip ans = "" then
        bulkLoop uid now s rest batch tr
      else
        let key := toString qid
        let created : Nat :=
          match s.getDoc uid key with
          | some old => old.created_at
          | none => now
        bulkLoop uid now s rest
          (batch ++ [(key, ⟨qid, pyStrip qtext, pyStrip ans, created, now⟩)])
          (tr ++ [.readDoc uid key])
    | _, _, _ =>
      (.error ⟨400, "Each answer must contain question_id, question_text, and answer"⟩,
        tr)

/-- `batch.commit()`: apply the accumulated `batch.set` writes in order. -/
def applyBatch (uid : String) (s : Store)
    (batch : List (String × AnswerDoc)) : Store :=
  batch.foldl (fun acc e => acc.setDoc uid e.1 e.2) s

/-- Handler `save_bulk_answers`: ownership check, non-empty check, the
per-item loop, a single batch commit, the best-effort summary refresh, and
a response whose count is the length of the request list. -/
def save_bulk_answers (authenticated_user_id : String)
    (request : BulkAnswersRequest) (now : Nat) (refreshOk : Bool)
    (s : Store) :
    Except Err UserAnswersResponse × Store × List StoreOp :=
  if authenticated_user_id ≠ request.user_id then
    (.error ⟨403, "Cannot save answers for another user"⟩, s, [])
  else if request.answers.isEmpty then
    (.error ⟨400, "Answers list cannot be empty"⟩, s, [])
  else
    match bulkLoop request.user_id now s request.answers [] [] with
    | (.error e, tr) => (.error e, s, tr)
    | (.ok batch, tr) =>
      let s1 := applyBatch request.user_id s batch
      let refreshed := update_user_summary refreshOk request.user_id now s1
      let n := request.answers.length
      (.ok ⟨true, "Successfully saved " ++ toString n ++ " answers",
          request.user_id, none, some n, none, some now⟩,
        refreshed.1,
        tr ++ [.batchCommit request.user_id batch.length] ++ refreshed.2)

/-- Handler `get_user_answers`: ownership check, stream all answer
documents of the user, sort ascending by `question_id` (Python
`list.sort`, a stable sort), and report `total_answers` as the length of
the returned list. -/
def get_user_answers (user_id authenticated_user_id : String) (s : Store) :
    Except Err UserAnswersResponse × Store × List StoreOp :=
  if authenticated_user_id ≠ user_id then
    (.error ⟨403, "Cannot access another user's answers"⟩, s, [])
  else
    let answers := s.streamDocs user_id
    let sorted := answers.mergeSort (fun a b => a.question_id ≤ b.question_id)
    (.ok ⟨true, "User answers retrieved successfully", user_id,
        some sorted, some sorted.length, none, none⟩,
      s, [.streamDocs user_id])

/-- The JSON object returned by `get_specific_answer`. -/
structure SpecificAnswerResponse where
  success : Bool
  message : String
  user_id : String
  question_id : Int
  question_text : String
  answer : String
  created_at : Nat
  updated_at : Nat
deriving Repr, DecidableEq

/-- Handler `get_specific_answer`: ownership check, single-document read,
404 when absent. -/
def get_specific_answer (user_id : String) (question_id : Int)
    (authenticated_user_id : String) (s : Store) :
    Except Err SpecificAnswerResponse × Store × List StoreOp :=
  if authenticated_user_id ≠ user_id then
    (.error ⟨403, "Cannot access another user's answers"⟩, s, [])
  else
    let key := toString question_id
    match s.getDoc user_id key with
    | none =>
      (.error ⟨404, "No answer found for question " ++ toString question_id⟩,
        s, [.readDoc user_id key])
    | some d =>
      (.ok ⟨true, "Answer retrieved successfully", user_id, d.question_id,
          d.question_text, d.answer, d.created_at, d.updated_at⟩,
        s, [.readDoc user_id key])

/-- An item contains the three required keys `question_id`,
`question_text`, `answer` (the `all(key in answer_item for ...)` check). -/
def BulkItem.hasAllFields (it : BulkItem) : Prop :=
  it.question_id.isSome ∧ it.question_text.isSome ∧ it.answer.isSome

instance (it : BulkItem) : Decidable it.hasAllFields := by
  unfold BulkItem.hasAllFields; infer_instance

/-- The document key an item targets (`str(answer_item["question_id"])`);
meaningful when `question_id` is present. -/
def BulkItem.key (it : BulkItem) : String :=
  toString (it.question_id.getD 0)

/-- The batch accumulated by the loop of `save_bulk_answers` when every
item is well formed: one `batch.set` entry per item whose `answer` is not
blank, with `created_at` taken from the pre-existing document (read
against the store as of the start of the request) when there is one. -/
def buildBatch (uid : String) (now : Nat) (s : Store) :
    List BulkItem → List (String × AnswerDoc)
  | [] => []
  | item :: rest =>
    match item.question_id, item.question_text, item.answer with
    | some qid, some qtext, some ans =>
      if pyStrip ans = "" then buildBatch uid now s rest
      else
        let key := toString qid
        let created : Nat :=
          match s.getDoc uid key with
          | some old => old.created_at
          | none => now
        (key, ⟨qid, pyStrip qtext, pyStrip ans, created, now⟩) :: buildBatch uid now s rest
    | _, _, _ => []

/-- The `created_at` value a write targeting key `k` of user `uid` ends up
with: the pre-existing document's `created_at` when the document exists,
else the time of the write. -/
def createdOf (s : Store) (uid k : String) (now : Nat) : Nat :=
  match s.getDoc uid k with
  | some old => old.created_at
  | none => now

/-- Outcome of `json.loads` on a credential blob (for the base64 branch:
of base64-decoding followed by `json.loads`): the parse may raise, or
produce a truthy value (a non-empty dict), or produce a falsy value such
as `{}` or `null`. -/
inductive ParseOutcome
  | truthy
  | falsy
  | raises
deriving Repr, DecidableEq

/-- The process environment and filesystem facts `initialize_firebase`
consults.  Environment values are `none` when unset; `parseRaw b` is the
outcome of `json.loads(b)`, `parseB64 b` the outcome of
`json.loads(base64.b64decode(b).decode("utf-8"))`, and `fileExists p` is
`os.path.exists(p)`. -/
structure FirebaseEnv where
  serviceAccount : Option String
  serviceAccountB64 : Option String
  serviceAccountPath : Option String
  fileExists : String → Bool
  parseRaw : String → ParseOutcome
  parseB64 : String → ParseOutcome

/-- Which credential source an initialization used. -/
inductive CredSource
  | rawEnv
  | b64Env
  | credFile (path : String)
deriving Repr, DecidableEq

/-- `initialize_firebase()`: guarded by `if not firebase_admin._apps`
(`apps` is whether the app is already initialized).  Tries the raw
environment blob, then the base64 environment blob (Python truthiness: an
empty string is as good as unset), then — when neither yields a truthy
credential dict — the service-account file, which is used only if it
exists; otherwise raises.  On success returns the new `apps` state and
the source used (`none` when the call was a no-op). -/
def initialize_firebase (env : FirebaseEnv) (apps : Bool) :
    Except String (Bool × Option CredSource) :=
  if apps then .ok (apps, none)
  else
    let fallback : Except String (Bool × Option CredSource) :=
      let path :=
        match env.serviceAccountPath with
        | some p => p
        | none => "config/firebase-service-account.json"
      if env.fileExists path then .ok (true, some (.credFile path))
      else .error "No Firebase credentials found. Please set FIREBASE_SERVICE_ACCOUNT or FIREBASE_SERVICE_ACCOUNT_BASE64."
    let raw := env.serviceAccount.getD ""
    let b64 := env.serviceAccountB64.getD ""
    if raw ≠ "" then
      match env.parseRaw raw with
      | .raises => .error "json.loads failed on FIREBASE_SERVICE_ACCOUNT"
      | .truthy => .ok (true, some .rawEnv)
      | .falsy => fallback
    else if b64 ≠ "" then
      match env.parseB64 b64 with
      | .raises => .error "decoding FIREBASE_SERVICE_ACCOUNT_BASE64 failed"
      | .truthy => .ok (true, some .b64Env)
      | .falsy => fallback
    else fallback

/-! ### Store lemmas -/

theorem entryMatch_iff (e : String × String × AnswerDoc) (u k : String) :
    (e.1 == u && e.2.1 == k) = true ↔ e.1 = u ∧ e.2.1 = k := by
  simp

theorem getDoc_setDoc_self (s : Store) (u k : String) (d : AnswerDoc) :
    (s.setDoc u k d).getDoc u k = some d := by
  unfold Store.setDoc Store.getDoc
  by_cases h : s.questions.any (fun e => e.1 == u && e.2.1 == k)
  · simp only [h, if_true]
    rw [List.find?_map]
    have hfun : ((fun e : String × String × AnswerDoc => e.1 == u && e.2.1 == k) ∘
        (fun e => if e.1 == u && e.2.1 == k then (u, k, d) else e))
        = (fun e => e.1 == u && e.2.1 == k) := by
      funext e
      by_cases he : (e.1 == u && e.2.1 == k) = true
      · simp [Function.comp, he]
      · simp [Function.comp, he]
    rw [hfun]
    rcases List.any_eq_true.mp h with ⟨e0, he0, hpe0⟩
    have hsome : (s.questions.find? (fun e => e.1 == u && e.2.1 == k)).isSome := by
      rw [List.find?_isSome]
      exact ⟨e0, he0, hpe0⟩
    rcases Option.isSome_iff_exists.mp hsome with ⟨e1, he1⟩
    have hpe1 := List.find?_some he1
    rcases (entryMatch_iff e1 u k).mp hpe1 with ⟨h1, h2⟩
    rw [he1]
    simp [h1, h2]
  · rw [Bool.not_eq_true] at h
    have hnone : s.questions.find? (fun e => e.1 == u && e.2.1 == k) = none := by
      rw [List.find?_eq_none]
      intro x hx hpx
      rw [List.any_eq_false] at h
      exact h x hx hpx
    simp [h, hnone]

theorem getDoc_setDoc_ne (s : Store) (u k u2 k2 : String) (d : AnswerDoc)
    (h : ¬(u2 = u ∧ k2 = k)) :
    (s.setDoc u k d).getDoc u2 k2 = s.getDoc u2 k2 := by
  unfold Store.setDoc Store.getDoc
  have hq_new : ((u, k, d).1 == u2 && (u, k, d).2.1 == k2) = false := by
    simp only [Bool.and_eq_false_iff, beq_eq_false_iff_ne]
    by_contra hc
    push_neg at hc
    exact h ⟨hc.1.symm, hc.2.symm⟩
  by_cases hany : s.questions.any (fun e => e.1 == u && e.2.1 == k)
  · simp only [hany, if_true]
    rw [List.find?_map]
    have hfun : ((fun e : String × String × AnswerDoc => e.1 == u2 && e.2.1 == k2) ∘
        (fun e => if e.1 == u && e.2.1 == k then (u, k, d) else e))
        = (fun e => e.1 == u2 && e.2.1 == k2) := by
      funext e
      by_cases he : (e.1 == u && e.2.1 == k) = true
      · have he2 : (e.1 == u2 && e.2.1 == k2) = false := by
          rcases (entryMatch_iff e u k).mp he with ⟨h1, h2⟩
          simp only [Bool.and_eq_false_iff, beq_eq_false_iff_ne]
          by_contra hc
          push_neg at hc
          exact h ⟨h1 ▸ hc.1.symm, h2 ▸ hc.2.symm⟩
        simp [Function.comp, he, hq_new, he2]
      · simp [Function.comp, he]
    rw [hfun]
    cases hfind : s.questions.find? (fun e => e.1 == u2 && e.2.1 == k2) with
    | none => simp
    | some e1 =>
      have hpe1 := List.find?_some hfind
      have hne1 : ¬(e1.1 = u ∧ e1.2.1 = k) := by
        rcases (entryMatch_iff e1 u2 k2).mp hpe1 with ⟨h1, h2⟩
        intro hc
        exact h ⟨h1 ▸ hc.1, h2 ▸ hc.2⟩
      simp [hne1]
  · rw [Bool.not_eq_true] at hany
    simp only [hany]
    cases hfind : s.questions.find? (fun e => e.1 == u2 && e.2.1 == k2) with
    | none => simp [hfind, hq_new]
    | some e1 => simp [hfind]

theorem questions_setSummary (s : Store) (u : String) (m : Summary) :
    (s.setSummary u m).questions = s.questions := by
  unfold Store.setSummary
  split <;> rfl

theorem questions_update_user_summary (r : Bool) (u : String) (n : Nat)
    (s : Store) :
    (update_user_summary r u n s).1.questions = s.questions := by
  unfold update_user_summary
  cases r
  · rfl
  · simp [questions_setSummary]

theorem getDoc_congr_questions (s1 s2 : Store) (u k : String)
    (h : s1.questions = s2.questions) : s1.getDoc u k = s2.getDoc u k := by
  unfold Store.getDoc
  rw [h]

theorem streamDocs_congr_questions (s1 s2 : Store) (u : String)
    (h : s1.questions = s2.questions) : s1.streamDocs u = s2.streamDocs u := by
  unfold Store.streamDocs
  rw [h]

theorem getSummary_setSummary_self (s : Store) (u : String) (m : Summary) :
    (s.setSummary u m).getSummary u = some m := by
  unfold Store.setSummary Store.getSummary
  by_cases h : s.summaries.any (fun e => e.1 == u)
  · simp only [h, if_true]
    rw [List.find?_map]
    have hfun : ((fun e : String × Summary => e.1 == u) ∘
        (fun e => if e.1 == u then (u, m) else e)) = (fun e => e.1 == u) := by
      funext e
      by_cases he : (e.1 == u) = true
      · simp [Function.comp, he]
      · simp [Function.comp, he]
    rw [hfun]
    rcases List.any_eq_true.mp h with ⟨e0, he0, hpe0⟩
    have hsome : (s.summaries.find? (fun e => e.1 == u)).isSome := by
      rw [List.find?_isSome]
      exact ⟨e0, he0, hpe0⟩
    rcases Option.isSome_iff_exists.mp hsome with ⟨e1, he1⟩
    have hpe1 := List.find?_some he1
    have h1 : e1.1 = u := by simpa using hpe1
    rw [he1]
    simp [h1]
  · rw [Bool.not_eq_true] at h
    have hnone : s.summaries.find? (fun e => e.1 == u) = none := by
      rw [List.find?_eq_none]
      intro x hx hpx
      rw [List.any_eq_false] at h
      exact h x hx hpx
    simp [h, hnone]

/-! ### Bulk-loop lemmas -/

theorem bulkLoop_ok (uid : String) (now : Nat) (s : Store) :
    ∀ (items : List BulkItem) (batch : List (String × AnswerDoc))
      (tr : List StoreOp),
      (∀ it ∈ items, it.hasAllFields) →
      ∃ tr2, bulkLoop uid now s items batch tr
        = (.ok (batch ++ buildBatch uid now s items), tr2)
  | [], batch, tr, _ => ⟨tr, by simp [bulkLoop, buildBatch]⟩
  | item :: rest, batch, tr, hall => by
    rcases hall item (List.mem_cons_self item rest) with ⟨hq, ht, ha⟩
    rcases Option.isSome_iff_exists.mp hq with ⟨qid, hq2⟩
    rcases Option.isSome_iff_exists.mp ht with ⟨qtext, ht2⟩
    rcases Option.isSome_iff_exists.mp ha with ⟨ans, ha2⟩
    have hrest : ∀ it ∈ rest, it.hasAllFields := fun it hit =>
      hall it (List.mem_cons_of_mem item hit)
    by_cases hblank : pyStrip ans = ""
    · rcases bulkLoop_ok uid now s rest batch tr hrest with ⟨tr2, ih⟩
      exact ⟨tr2, by
        rw [bulkLoop, buildBatch, hq2, ht2, ha2]
        simp only [hblank, if_pos]
        simpa using ih⟩
    · rcases bulkLoop_ok uid now s rest
        (batch ++ [(toString qid,
          ⟨qid, pyStrip qtext, pyStrip ans, createdOf s uid (toString qid) now, now⟩)])
        (tr ++ [.readDoc uid (toString qid)]) hrest with ⟨tr2, ih⟩
      exact ⟨tr2, by
        rw [bulkLoop, buildBatch, hq2, ht2, ha2]
        simp only [hblank, if_neg, if_false]
        simp only [createdOf] at ih
        rw [ih]
        simp⟩

theorem bulkLoop_missing (uid : String) (now : Nat) (s : Store) :
    ∀ (items : List BulkItem) (batch : List (String × AnswerDoc))
      (tr : List StoreOp),
      (∃ it ∈ items, ¬it.hasAllFields) →
      ∃ tr2, bulkLoop uid now s items batch tr
        = (.error ⟨400, "Each answer must contain question_id, question_text, and answer"⟩, tr2)
  | [], _, _, hbad => absurd hbad (by simp)
  | item :: rest, batch, tr, hbad => by
    by_cases hfields : item.hasAllFields
    · rcases hfields with ⟨hq, ht, ha⟩
      rcases Option.isSome_iff_exists.mp hq with ⟨qid, hq2⟩
      rcases Option.isSome_iff_exists.mp ht with ⟨qtext, ht2⟩
      rcases Option.isSome_iff_exists.mp ha with ⟨ans, ha2⟩
      have hrest : ∃ it ∈ rest, ¬it.hasAllFields := by
        rcases hbad with ⟨it, hit, hbadit⟩
        rcases List.mem_cons.mp hit with heq | hmem
        · exact absurd (heq ▸ ⟨hq, ht, ha⟩) hbadit
        · exact ⟨it, hmem, hbadit⟩
      by_cases hblank : pyStrip ans = ""
      · rcases bulkLoop_missing uid now s rest batch tr hrest with ⟨tr2, ih⟩
        exact ⟨tr2, by
          rw [bulkLoop, hq2, ht2, ha2]
          simp only [hblank, if_pos]
          exact ih⟩
      · rcases bulkLoop_missing uid now s rest
          (batch ++ [(toString qid,
            ⟨qid, pyStrip qtext, pyStrip ans, createdOf s uid (toString qid) now, now⟩)])
          (tr ++ [.readDoc uid (toString qid)]) hrest with ⟨tr2, ih⟩
        exact ⟨tr2, by
          rw [bulkLoop, hq2, ht2, ha2]
          simp only [hblank, if_neg, if_false]
          rw [← ih]
          simp [createdOf]⟩
    · refine ⟨tr, ?_⟩
      rw [bulkLoop]
      unfold BulkItem.hasAllFields at hfields
      rcases hoq : item.question_id with _ | qid <;>
        rcases hot : item.question_text with _ | qtext <;>
          rcases hoa : item.answer with _ | ans <;>
            first
              | rfl
              | exact absurd ⟨by simp [hoq], by simp [hot], by simp [hoa]⟩ hfields

/-- Master lemma: a fully well-formed non-empty bulk request from the
owner succeeds, its response reports the request length, and the final
store is the batch applied then the summary refresh. -/
theorem save_bulk_ok (uid : String) (items : List BulkItem) (now : Nat)
    (refreshOk : Bool) (s : Store)
    (hne : items ≠ []) (hall : ∀ it ∈ items, it.hasAllFields) :
    ∃ tr, save_bulk_answers uid ⟨items, uid⟩ now refreshOk s
      = (.ok ⟨true, "Successfully saved " ++ toString items.length ++ " answers",
            uid, none, some items.length, none, some now⟩,
         (update_user_summary refreshOk uid now
            (applyBatch uid s (buildBatch uid now s items))).1,
         tr) := by
  rcases bulkLoop_ok uid now s items [] [] hall with ⟨tr2, hloop⟩
  rw [save_bulk_answers]
  rw [if_neg (by simp)]
  rw [if_neg (by simpa using hne)]
  simp only at hloop ⊢
  rw [hloop]
  exact ⟨_, rfl⟩

theorem getDoc_applyBatch_notMem (uid u2 k : String) :
    ∀ (batch : List (String × AnswerDoc)) (s : Store),
      (∀ e ∈ batch, ¬(u2 = uid ∧ k = e.1)) →
      (applyBatch uid s batch).getDoc u2 k = s.getDoc u2 k
  | [], s, _ => rfl
  | (k0, d0) :: rest, s, h => by
    rw [applyBatch]
    simp only [List.foldl_cons]
    have hrest : ∀ e ∈ rest, ¬(u2 = uid ∧ k = e.1) := fun e he =>
      h e (List.mem_cons_of_mem _ he)
    have tail := getDoc_applyBatch_notMem uid u2 k rest (s.setDoc uid k0 d0) hrest
    rw [applyBatch] at tail
    rw [tail]
    exact getDoc_setDoc_ne s uid k0 u2 k d0
      (fun hc => h (k0, d0) (List.mem_cons_self _ _) ⟨hc.1, hc.2⟩)

theorem getDoc_applyBatch_mem (uid k : String) (d : AnswerDoc) :
    ∀ (batch : List (String × AnswerDoc)) (s : Store),
      (k, d) ∈ batch → (batch.map Prod.fst).Nodup →
      (applyBatch uid s batch).getDoc uid k = some d
  | [], _, hmem, _ => absurd hmem (by simp)
  | (k0, d0) :: rest, s, hmem, hnd => by
    rw [applyBatch]
    simp only [List.foldl_cons]
    rcases List.mem_cons.mp hmem with heq | hmem2
    · have hk : k = k0 := congrArg Prod.fst heq
      have hd : d = d0 := congrArg Prod.snd heq
      subst hk
      subst hd
      have hnotin : ∀ e ∈ rest, ¬(uid = uid ∧ k = e.1) := by
        intro e he hc
        have : k ∈ rest.map Prod.fst := List.mem_map.mpr ⟨e, he, hc.2.symm⟩
        simp only [List.map_cons, List.nodup_cons] at hnd
        exact hnd.1 this
      have tail := getDoc_applyBatch_notMem uid uid k rest (s.setDoc uid k d) hnotin
      rw [applyBatch] at tail
      rw [tail]
      exact getDoc_setDoc_self s uid k d
    · have tail := getDoc_applyBatch_mem uid k d rest (s.setDoc uid k0 d0) hmem2
        (by simp only [List.map_cons, List.nodup_cons] at hnd; exact hnd.2)
      rw [applyBatch] at tail
      exact tail

theorem buildBatch_keys_sublist (uid : String) (now : Nat) (s : Store) :
    ∀ items : List BulkItem,
      ((buildBatch uid now s items).map Prod.fst).Sublist
        (items.map BulkItem.key)
  | [] => by simp [buildBatch]
  | item :: rest => by
    rw [buildBatch]
    rcases hoq : item.question_id with _ | qid
    · simp
    · rcases hot : item.question_text with _ | qtext
      · simp
      · rcases hoa : item.answer with _ | ans
        · simp
        · by_cases hblank : pyStrip ans = ""
          · simp only [hblank, if_pos, List.map_cons]
            exact (buildBatch_keys_sublist uid now s rest).cons _
          · simp only [hblank, if_neg, if_false, List.map_cons]
            have hk : BulkItem.key item = toString qid := by
              simp [BulkItem.key, hoq]
            rw [hk]
            exact (buildBatch_keys_sublist uid now s rest).cons₂ _

theorem mem_buildBatch (uid : String) (now : Nat) (s : Store) :
    ∀ (items : List BulkItem), (∀ x ∈ items, x.hasAllFields) →
      ∀ (it : BulkItem), it ∈ items →
      ∀ (qid : Int) (qtext ans : String),
        it.question_id = some qid → it.question_text = some qtext →
        it.answer = some ans → pyStrip ans ≠ "" →
        (toString qid,
          (⟨qid, pyStrip qtext, pyStrip ans,
            createdOf s uid (toString qid) now, now⟩ : AnswerDoc))
          ∈ buildBatch uid now s items
  | [], _, _, hit => absurd hit (by simp)
  | item :: rest, hall, it, hit => by
    intro qid qtext ans hq ht ha hblank
    have hrest : ∀ x ∈ rest, x.hasAllFields := fun x hx =>
      hall x (List.mem_cons_of_mem _ hx)
    rcases List.mem_cons.mp hit with heq | hmem
    · subst heq
      rw [buildBatch, hq, ht, ha]
      simp only [hblank, if_neg, if_false]
      simp only [createdOf]
      exact List.mem_cons_self _ _
    · have tail := mem_buildBatch uid now s rest hrest it hmem qid qtext ans
        hq ht ha hblank
      rcases hall item (List.mem_cons_self _ _) with ⟨h1, h2, h3⟩
      rcases Option.isSome_iff_exists.mp h1 with ⟨qid0, hq0⟩
      rcases Option.isSome_iff_exists.mp h2 with ⟨qt0, ht0⟩
      rcases Option.isSome_iff_exists.mp h3 with ⟨a0, ha0⟩
      rw [buildBatch, hq0, ht0, ha0]
      by_cases hb0 : pyStrip a0 = ""
      · simp only [hb0, if_pos]
        exact tail
      · simp only [hb0, if_neg, if_false]
        exact List.mem_cons_of_mem _ tail

theorem buildBatch_key_mem (uid : String) (now : Nat) (s : Store) :
    ∀ (items : List BulkItem) (k : String),
      k ∈ (buildBatch uid now s items).map Prod.fst →
      ∃ it ∈ items, ∃ (qid : Int) (ans : String),
        it.question_id = some qid ∧ it.answer = some ans ∧
        pyStrip ans ≠ "" ∧ k = toString qid
  | [], k, hmem => absurd hmem (by simp [buildBatch])
  | item :: rest, k, hmem => by
    have tailOf : k ∈ (buildBatch uid now s rest).map Prod.fst →
        ∃ it ∈ item :: rest, ∃ (qid : Int) (ans : String),
          it.question_id = some qid ∧ it.answer = some ans ∧
          pyStrip ans ≠ "" ∧ k = toString qid := by
      intro hm
      rcases buildBatch_key_mem uid now s rest k hm with ⟨it, hit, w⟩
      exact ⟨it, List.mem_cons_of_mem _ hit, w⟩
    rcases hoq : item.question_id with _ | qid0
    · simp only [buildBatch, hoq] at hmem
      exact absurd hmem (by simp)
    · rcases hot : item.question_text with _ | qtext0
      · simp only [buildBatch, hoq, hot] at hmem
        exact absurd hmem (by simp)
      · rcases hoa : item.answer with _ | ans0
        · simp only [buildBatch, hoq, hot, hoa] at hmem
          exact absurd hmem (by simp)
        · simp only [buildBatch, hoq, hot, hoa] at hmem
          by_cases hb0 : pyStrip ans0 = ""
          · rw [if_pos hb0] at hmem
            exact tailOf hmem
          · rw [if_neg hb0] at hmem
            simp only [List.map_cons, List.mem_cons] at hmem
            rcases hmem with heq | hmem2
            · exact ⟨item, List.mem_cons_self _ _, qid0, ans0, hoq, hoa, hb0, heq⟩
            · exact tailOf hmem2

/-- After a successful refresh, the stored summary's `total_answers` is
the live count of the user's answer documents. -/
theorem update_user_summary_true_getSummary (uid : String) (now : Nat)
    (s : Store) :
    (update_user_summary true uid now s).1.getSummary uid
      = some ⟨uid, ((update_user_summary true uid now s).1.streamDocs uid).length,
          now⟩ := by
  rw [update_user_summary]
  simp only [if_true]
  rw [getSummary_setSummary_self]
  rw [streamDocs_congr_questions
    (s.setSummary uid ⟨uid, (s.questions.filter (fun e => e.1 == uid)).length, now⟩)
    s uid (questions_setSummary s uid _)]
  unfold Store.streamDocs
  rw [List.length_map]

/-! ### Claim theorems -/

/-- C2: an authenticated request to `save_question_answer`,
`save_bulk_answers`, `get_user_answers` or `get_specific_answer` whose
bearer token resolves to identity `A` while the target user id is `B ≠ A`
fails with Forbidden (403), leaves the store unchanged, and performs no
document-store operation at all before that failure (empty trace). -/
theorem forbidden_before_any_store_access
    (A B : String) (hAB : A ≠ B)
    (req : QuestionAnswerRequest) (hq : req.user_id = B)
    (breq : BulkAnswersRequest) (hb : breq.user_id = B)
    (qid : Int) (now : Nat) (refreshOk : Bool) (s : Store) :
    save_question_answer A req now refreshOk s
      = (.error ⟨403, "Cannot save answers for another user"⟩, s, [])
    ∧ save_bulk_answers A breq now refreshOk s
      = (.error ⟨403, "Cannot save answers for another user"⟩, s, [])
    ∧ get_user_answers B A s
      = (.error ⟨403, "Cannot access another user's answers"⟩, s, [])
    ∧ get_specific_answer B qid A s
      = (.error ⟨403, "Cannot access another user's answers"⟩, s, []) := by
  refine ⟨?_, ?_, ?_, ?_⟩
  · rw [save_question_answer, if_pos (hq ▸ hAB)]
  · rw [save_bulk_answers, if_pos (hb ▸ hAB)]
  · rw [get_user_answers, if_pos hAB]
  · rw [get_specific_answer, if_pos hAB]

/-- Witness for C2 at `A = "alice"`, `B = "bob"`. -/
theorem forbidden_before_any_store_access_witness :
    save_question_answer "alice" ⟨1, "Q", "A", "bob"⟩ 7 true Store.empty
      = (.error ⟨403, "Cannot save answers for another user"⟩, Store.empty, [])
    ∧ save_bulk_answers "alice" ⟨[⟨some 1, some "Q", some "A"⟩], "bob"⟩ 7 true Store.empty
      = (.error ⟨403, "Cannot save answers for another user"⟩, Store.empty, [])
    ∧ get_user_answers "bob" "alice" Store.empty
      = (.error ⟨403, "Cannot access another user's answers"⟩, Store.empty, [])
    ∧ get_specific_answer "bob" 1 "alice" Store.empty
      = (.error ⟨403, "Cannot access another user's answers"⟩, Store.empty, []) :=
  forbidden_before_any_store_access "alice" "bob" (by decide)
    ⟨1, "Q", "A", "bob"⟩ rfl ⟨[⟨some 1, some "Q", some "A"⟩], "bob"⟩ rfl
    1 7 true Store.empty

/-- C10: in `save_question_answer` the ownership check runs before field
validation: a request whose `user_id` differs from the authenticated
identity fails with 403 even when its `answer` or `question_text` is
blank, never with the 400 validation error. -/
theorem ownership_check_precedes_validation
    (auth : String) (req : QuestionAnswerRequest) (now : Nat)
    (refreshOk : Bool) (s : Store)
    (hne : auth ≠ req.user_id)
    (_hblank : pyStrip req.answer = "" ∨ pyStrip req.question_text = "") :
    save_question_answer auth req now refreshOk s
      = (.error ⟨403, "Cannot save answers for another user"⟩, s, []) := by
  rw [save_question_answer, if_pos hne]

/-- Witness for C10: a cross-user request with a blank answer gets 403. -/
theorem ownership_check_precedes_validation_witness :
    save_question_answer "alice" ⟨1, "Q", "   ", "bob"⟩ 7 true Store.empty
      = (.error ⟨403, "Cannot save answers for another user"⟩, Store.empty, []) :=
  ownership_check_precedes_validation "alice" ⟨1, "Q", "   ", "bob"⟩ 7 true
    Store.empty (by decide) (Or.inl (by decide))

/-- C8: `save_question_answer`, for the matching authenticated user,
rejects a blank (whitespace-only) `answer` with 400 writing nothing,
rejects a blank `question_text` with 400 writing nothing, and for
non-blank inputs stores a document holding the whitespace-stripped
`answer` and `question_text`. -/
theorem save_question_answer_validation
    (auth : String) (req : QuestionAnswerRequest) (now : Nat)
    (refreshOk : Bool) (s : Store) (hauth : auth = req.user_id) :
    (pyStrip req.answer = "" →
      save_question_answer auth req now refreshOk s
        = (.error ⟨400, "Answer cannot be empty"⟩, s, []))
    ∧ (pyStrip req.answer ≠ "" → pyStrip req.question_text = "" →
      save_question_answer auth req now refreshOk s
        = (.error ⟨400, "Question text cannot be empty"⟩, s, []))
    ∧ (pyStrip req.answer ≠ "" → pyStrip req.question_text ≠ "" →
      (∃ resp, (save_question_answer auth req now refreshOk s).1 = .ok resp)
      ∧ ((save_question_answer auth req now refreshOk s).2.1.getDoc
            req.user_id (toString req.question_id)).map
            (fun d => (d.question_text, d.answer))
        = some (pyStrip req.question_text, pyStrip req.answer)) := by
  have hnot : ¬auth ≠ req.user_id := by simpa using hauth
  refine ⟨?_, ?_, ?_⟩
  · intro ha
    rw [save_question_answer, if_neg hnot, if_pos ha]
  · intro ha hq
    rw [save_question_answer, if_neg hnot, if_neg ha, if_pos hq]
  · intro ha hq
    rw [save_question_answer, if_neg hnot, if_neg ha, if_neg hq]
    constructor
    · exact ⟨_, rfl⟩
    · have hques := questions_update_user_summary refreshOk req.user_id now
        (s.setDoc req.user_id (toString req.question_id)
          ⟨req.question_id, pyStrip req.question_text, pyStrip req.answer,
            (match s.getDoc req.user_id (toString req.question_id) with
              | some old => old.created_at
              | none => now), now⟩)
      rw [getDoc_congr_questions _ _ req.user_id (toString req.question_id) hques,
        getDoc_setDoc_self]
      rfl

/-- Witness for C8 covering all three branches at concrete inputs. -/
theorem save_question_answer_validation_witness :
    (save_question_answer "u" ⟨1, "Q", " ", "u"⟩ 7 true Store.empty
      = (.error ⟨400, "Answer cannot be empty"⟩, Store.empty, []))
    ∧ (save_question_answer "u" ⟨1, "\t", " A ", "u"⟩ 7 true Store.empty
      = (.error ⟨400, "Question text cannot be empty"⟩, Store.empty, []))
    ∧ ((∃ resp,
        (save_question_answer "u" ⟨1, " Q ", " A ", "u"⟩ 7 true Store.empty).1
          = .ok resp)
      ∧ ((save_question_answer "u" ⟨1, " Q ", " A ", "u"⟩ 7 true
            Store.empty).2.1.getDoc "u" (toString (1 : Int))).map
            (fun d => (d.question_text, d.answer))
        = some (pyStrip " Q ", pyStrip " A ")) :=
  ⟨(save_question_answer_validation "u" ⟨1, "Q", " ", "u"⟩ 7 true
      Store.empty rfl).1 (by decide),
   (save_question_answer_validation "u" ⟨1, "\t", " A ", "u"⟩ 7 true
      Store.empty rfl).2.1 (by decide) (by decide),
   (save_question_answer_validation "u" ⟨1, " Q ", " A ", "u"⟩ 7 true
      Store.empty rfl).2.2 (by decide) (by decide)⟩

/-- C1: a bulk save whose items all contain the three required fields
skips every item with a blank answer (its document is untouched), writes
every other item (stripped, preserving an existing `created_at`), and the
stored summary's `total_answers` is the live count of the user's stored
answer documents afterwards — not the length of the request list. -/
theorem bulk_save_skips_blank_and_recounts
    (uid : String) (items : List BulkItem) (now : Nat) (s : Store)
    (hne : items ≠ [])
    (hall : ∀ it ∈ items, it.hasAllFields)
    (hdist : (items.map BulkItem.key).Nodup) :
    (∃ resp, (save_bulk_answers uid ⟨items, uid⟩ now true s).1 = .ok resp)
    ∧ (∀ it ∈ items, ∀ (qid : Int) (qtext ans : String),
        it.question_id = some qid → it.question_text = some qtext →
        it.answer = some ans →
        (pyStrip ans = "" →
          (save_bulk_answers uid ⟨items, uid⟩ now true s).2.1.getDoc uid
              (toString qid) = s.getDoc uid (toString qid))
        ∧ (pyStrip ans ≠ "" →
          (save_bulk_answers uid ⟨items, uid⟩ now true s).2.1.getDoc uid
              (toString qid)
            = some ⟨qid, pyStrip qtext, pyStrip ans,
                createdOf s uid (toString qid) now, now⟩))
    ∧ ((save_bulk_answers uid ⟨items, uid⟩ now true s).2.1.getSummary uid
        = some ⟨uid,
            ((save_bulk_answers uid ⟨items, uid⟩ now true s).2.1.streamDocs
              uid).length, now⟩) := by
  obtain ⟨tr, hmain⟩ := save_bulk_ok uid items now true s hne hall
  have hstore : (save_bulk_answers uid ⟨items, uid⟩ now true s).2.1
      = (update_user_summary true uid now
          (applyBatch uid s (buildBatch uid now s items))).1 := by
    rw [hmain]
  have hq : (save_bulk_answers uid ⟨items, uid⟩ now true s).2.1.questions
      = (applyBatch uid s (buildBatch uid now s items)).questions := by
    rw [hstore, questions_update_user_summary]
  have hbkeys : ((buildBatch uid now s items).map Prod.fst).Nodup :=
    List.Nodup.sublist (buildBatch_keys_sublist uid now s items) hdist
  refine ⟨⟨_, by rw [hmain]⟩, ?_, ?_⟩
  · intro it hit qid qtext ans hq2 ht2 ha2
    constructor
    · intro hblank
      rw [getDoc_congr_questions _ (applyBatch uid s (buildBatch uid now s items))
        uid (toString qid) hq]
      apply getDoc_applyBatch_notMem
      intro e he hc
      have hkmem : e.1 ∈ (buildBatch uid now s items).map Prod.fst :=
        List.mem_map.mpr ⟨e, he, rfl⟩
      rw [← hc.2] at hkmem
      obtain ⟨it2, hit2, qid2, ans2, hq3, ha3, hbl3, hk3⟩ :=
        buildBatch_key_mem uid now s items (toString qid) hkmem
      have hkey1 : BulkItem.key it = toString qid := by
        simp [BulkItem.key, hq2]
      have hkey2 : BulkItem.key it2 = toString qid2 := by
        simp [BulkItem.key, hq3]
      have heq : it = it2 :=
        List.inj_on_of_nodup_map hdist hit hit2
          (by rw [hkey1, hkey2, ← hk3])
      rw [← heq, ha2] at ha3
      have h4 : ans = ans2 := Option.some.inj ha3
      exact hbl3 (h4 ▸ hblank)
    · intro hblank
      rw [getDoc_congr_questions _ (applyBatch uid s (buildBatch uid now s items))
        uid (toString qid) hq]
      exact getDoc_applyBatch_mem uid (toString qid) _
        (buildBatch uid now s items) s
        (mem_buildBatch uid now s items hall it hit qid qtext ans hq2 ht2 ha2
          hblank) hbkeys
  · rw [hstore]
    exact update_user_summary_true_getSummary uid now _

/-- Witness for C1: the spec's concrete example — bulk-saving
`[{1, "Q1", "A1"}, {2, "Q2", ""}]` into an empty store stores exactly the
answer for question 1 and the summary reports `total_answers = 1`. -/
theorem bulk_save_skips_blank_and_recounts_witness :
    (∃ resp, (save_bulk_answers "u"
        ⟨[⟨some 1, some "Q1", some "A1"⟩, ⟨some 2, some "Q2", some ""⟩], "u"⟩
        5 true Store.empty).1 = .ok resp)
    ∧ ((save_bulk_answers "u"
        ⟨[⟨some 1, some "Q1", some "A1"⟩, ⟨some 2, some "Q2", some ""⟩], "u"⟩
        5 true Store.empty).2.1.getDoc "u" (toString (1 : Int))
      = some ⟨1, "Q1", "A1", 5, 5⟩)
    ∧ ((save_bulk_answers "u"
        ⟨[⟨some 1, some "Q1", some "A1"⟩, ⟨some 2, some "Q2", some ""⟩], "u"⟩
        5 true Store.empty).2.1.getDoc "u" (toString (2 : Int)) = none)
    ∧ ((save_bulk_answers "u"
        ⟨[⟨some 1, some "Q1", some "A1"⟩, ⟨some 2, some "Q2", some ""⟩], "u"⟩
        5 true Store.empty).2.1.getSummary "u" = some ⟨"u", 1, 5⟩) := by
  have h := bulk_save_skips_blank_and_recounts "u"
    [⟨some 1, some "Q1", some "A1"⟩, ⟨some 2, some "Q2", some ""⟩] 5
    Store.empty (by decide) (by decide) (by decide)
  refine ⟨h.1, ?_, ?_, ?_⟩
  · have h1 := (h.2.1 ⟨some 1, some "Q1", some "A1"⟩ (by decide) 1 "Q1" "A1"
      rfl rfl rfl).2 (by decide)
    rw [h1]
    decide
  · have h2 := (h.2.1 ⟨some 2, some "Q2", some ""⟩ (by decide) 2 "Q2" ""
      rfl rfl rfl).1 (by decide)
    rw [h2]
    decide
  · have h3 := h.2.2
    rw [h3]
    decide

/-- C4: a bulk request containing an item missing one of the three
required fields fails whole with 400 and leaves the store unchanged,
regardless of how many earlier items were well-formed. -/
theorem bulk_missing_field_rejects_whole_request
    (uid : String) (items : List BulkItem) (now : Nat) (refreshOk : Bool)
    (s : Store) (hbad : ∃ it ∈ items, ¬it.hasAllFields) :
    ∃ tr, save_bulk_answers uid ⟨items, uid⟩ now refreshOk s
      = (.error ⟨400, "Each answer must contain question_id, question_text, and answer"⟩,
         s, tr) := by
  have hne : items ≠ [] := by
    obtain ⟨it0, hit0, _⟩ := hbad
    exact List.ne_nil_of_mem hit0
  obtain ⟨tr2, hloop⟩ := bulkLoop_missing uid now s items [] [] hbad
  refine ⟨tr2, ?_⟩
  rw [save_bulk_answers]
  rw [if_neg (by simp)]
  rw [if_neg (by simpa using hne)]
  simp only at hloop ⊢
  rw [hloop]

/-- Witness for C4: a malformed second item (missing `question_text`)
rejects the whole request although the first item is well-formed. -/
theorem bulk_missing_field_rejects_whole_request_witness :
    ∃ tr, save_bulk_answers "u"
        ⟨[⟨some 1, some "Q1", some "A1"⟩, ⟨some 2, none, some "A2"⟩], "u"⟩
        5 true Store.empty
      = (.error ⟨400, "Each answer must contain question_id, question_text, and answer"⟩,
         Store.empty, tr) :=
  bulk_missing_field_rejects_whole_request "u"
    [⟨some 1, some "Q1", some "A1"⟩, ⟨some 2, none, some "A2"⟩] 5 true
    Store.empty ⟨⟨some 2, none, some "A2"⟩, by decide, by decide⟩

/-- C9: the success response of `save_bulk_answers` reports
`total_answers` (and the count in its message) as the length of the
request's `answers` list, counting items skipped for a blank answer. -/
theorem bulk_response_counts_request_items
    (auth : String) (req : BulkAnswersRequest) (now : Nat) (refreshOk : Bool)
    (s : Store) (resp : UserAnswersResponse)
    (hok : (save_bulk_answers auth req now refreshOk s).1 = .ok resp) :
    resp.total_answers = some req.answers.length
    ∧ resp.message
      = "Successfully saved " ++ toString req.answers.length ++ " answers" := by
  rw [save_bulk_answers] at hok
  by_cases h1 : auth ≠ req.user_id
  · rw [if_pos h1] at hok
    cases hok
  · rw [if_neg h1] at hok
    by_cases h2 : req.answers.isEmpty
    · rw [if_pos h2] at hok
      cases hok
    · rw [if_neg h2] at hok
      rcases hres : bulkLoop req.user_id now s req.answers [] [] with ⟨res, tr⟩
      rw [hres] at hok
      cases res with
      | error e => cases hok
      | ok batch =>
        simp only at hok
        cases hok
        exact ⟨rfl, rfl⟩

/-- Witness for C9: the spec's example request of two items (one skipped
for a blank answer) reports two saved answers while only one document is
written. -/
theorem bulk_response_counts_request_items_witness :
    ((⟨true, "Successfully saved 2 answers", "u", none, some 2, none,
        some 5⟩ : UserAnswersResponse).total_answers = some 2
      ∧ (⟨true, "Successfully saved 2 answers", "u", none, some 2, none,
        some 5⟩ : UserAnswersResponse).message = "Successfully saved 2 answers")
    ∧ ((save_bulk_answers "u"
        ⟨[⟨some 1, some "Q1", some "A1"⟩, ⟨some 2, some "Q2", some ""⟩], "u"⟩
        5 true Store.empty).2.1.streamDocs "u").length = 1 :=
  ⟨by
    have h := bulk_response_counts_request_items "u"
      ⟨[⟨some 1, some "Q1", some "A1"⟩, ⟨some 2, some "Q2", some ""⟩], "u"⟩
      5 true Store.empty
      ⟨true, "Successfully saved 2 answers", "u", none, some 2, none, some 5⟩
      rfl
    exact ⟨h.1, rfl⟩,
   by decide⟩

/-- C3: overwriting an existing (user, question) answer document — via
`save_question_answer` or via an item of `save_bulk_answers` — preserves
the document's original `created_at` while setting `updated_at` to the
time of the new write, and a reader (`get_specific_answer`) afterwards
sees the original `created_at`. -/
theorem created_at_immutable_on_overwrite
    (uid : String) (now : Nat) (s : Store) (qid : Int) (old : AnswerDoc)
    (hdoc : s.getDoc uid (toString qid) = some old)
    (qtext ans : String) (ha : pyStrip ans ≠ "") (ht : pyStrip qtext ≠ "")
    (items : List BulkItem)
    (hmem : (⟨some qid, some qtext, some ans⟩ : BulkItem) ∈ items)
    (hall : ∀ it ∈ items, it.hasAllFields)
    (hdist : (items.map BulkItem.key).Nodup)
    (refreshOk : Bool) :
    ((save_question_answer uid ⟨qid, qtext, ans, uid⟩ now refreshOk s).2.1.getDoc
        uid (toString qid)
      = some ⟨qid, pyStrip qtext, pyStrip ans, old.created_at, now⟩)
    ∧ ((get_specific_answer uid qid uid
          (save_question_answer uid ⟨qid, qtext, ans, uid⟩ now refreshOk s).2.1).1
        = .ok ⟨true, "Answer retrieved successfully", uid, qid, pyStrip qtext,
            pyStrip ans, old.created_at, now⟩)
    ∧ ((save_bulk_answers uid ⟨items, uid⟩ now refreshOk s).2.1.getDoc uid
          (toString qid)
        = some ⟨qid, pyStrip qtext, pyStrip ans, old.created_at, now⟩) := by
  have hcreated : createdOf s uid (toString qid) now = old.created_at := by
    rw [createdOf, hdoc]
  have hsave1 : (save_question_answer uid ⟨qid, qtext, ans, uid⟩ now
      refreshOk s).2.1.getDoc uid (toString qid)
      = some ⟨qid, pyStrip qtext, pyStrip ans, old.created_at, now⟩ := by
    rw [save_question_answer]
    rw [if_neg (by simp)]
    rw [if_neg ha]
    rw [if_neg ht]
    simp only
    have hques := questions_update_user_summary refreshOk uid now
      (s.setDoc uid (toString qid)
        ⟨qid, pyStrip qtext, pyStrip ans,
          (match s.getDoc uid (toString qid) with
            | some old2 => old2.created_at
            | none => now), now⟩)
    rw [getDoc_congr_questions _ _ uid (toString qid) hques,
      getDoc_setDoc_self, hdoc]
  refine ⟨hsave1, ?_, ?_⟩
  · rw [get_specific_answer]
    rw [if_neg (by simp)]
    simp only
    rw [hsave1]
  · obtain ⟨tr, hmain⟩ := save_bulk_ok uid items now refreshOk s
      (List.ne_nil_of_mem hmem) hall
    have hq : (save_bulk_answers uid ⟨items, uid⟩ now refreshOk s).2.1.questions
        = (applyBatch uid s (buildBatch uid now s items)).questions := by
      rw [hmain]
      simp only
      rw [questions_update_user_summary]
    rw [getDoc_congr_questions _ (applyBatch uid s (buildBatch uid now s items))
      uid (toString qid) hq]
    have hbkeys : ((buildBatch uid now s items).map Prod.fst).Nodup :=
      List.Nodup.sublist (buildBatch_keys_sublist uid now s items) hdist
    have hm := mem_buildBatch uid now s items hall _ hmem qid qtext ans
      rfl rfl rfl ha
    rw [hcreated] at hm
    exact getDoc_applyBatch_mem uid (toString qid) _
      (buildBatch uid now s items) s hm hbkeys

/-- Witness for C3: question 1 written at time 3 is overwritten at time 9
by both paths; `created_at` stays 3 and `updated_at` becomes 9. -/
theorem created_at_immutable_on_overwrite_witness :
    ((save_question_answer "u" ⟨1, "Q2", "B", "u"⟩ 9 true
        ⟨[("u", "1", ⟨1, "Q", "A", 3, 3⟩)], []⟩).2.1.getDoc "u" (toString (1 : Int))
      = some ⟨1, pyStrip "Q2", pyStrip "B",
          (⟨1, "Q", "A", 3, 3⟩ : AnswerDoc).created_at, 9⟩)
    ∧ ((get_specific_answer "u" 1 "u"
          (save_question_answer "u" ⟨1, "Q2", "B", "u"⟩ 9 true
            ⟨[("u", "1", ⟨1, "Q", "A", 3, 3⟩)], []⟩).2.1).1
        = .ok ⟨true, "Answer retrieved successfully", "u", 1, pyStrip "Q2",
            pyStrip "B", (⟨1, "Q", "A", 3, 3⟩ : AnswerDoc).created_at, 9⟩)
    ∧ ((save_bulk_answers "u" ⟨[⟨some 1, some "Q2", some "B"⟩], "u"⟩ 9 true
          ⟨[("u", "1", ⟨1, "Q", "A", 3, 3⟩)], []⟩).2.1.getDoc "u" (toString (1 : Int))
        = some ⟨1, pyStrip "Q2", pyStrip "B",
            (⟨1, "Q", "A", 3, 3⟩ : AnswerDoc).created_at, 9⟩) :=
  created_at_immutable_on_overwrite "u" 9
    ⟨[("u", "1", ⟨1, "Q", "A", 3, 3⟩)], []⟩ 1 ⟨1, "Q", "A", 3, 3⟩ (by decide)
    "Q2" "B" (by decide) (by decide)
    [⟨some 1, some "Q2", some "B"⟩] (by decide) (by decide) (by decide) true

/-- C5: a failure of the best-effort summary refresh is swallowed: for
every request, the handler's result and the stored answer documents are
identical whether the refresh succeeds (`refreshOk = true`) or fails
(`refreshOk = false`) — so a refresh failure never changes the outcome of
the parent write, and the answer documents it wrote remain stored. -/
theorem summary_refresh_failure_swallowed
    (auth : String) (req : QuestionAnswerRequest) (breq : BulkAnswersRequest)
    (now : Nat) (s : Store) :
    ((save_question_answer auth req now false s).1
      = (save_question_answer auth req now true s).1)
    ∧ ((save_question_answer auth req now false s).2.1.questions
      = (save_question_answer auth req now true s).2.1.questions)
    ∧ ((save_bulk_answers auth breq now false s).1
      = (save_bulk_answers auth breq now true s).1)
    ∧ ((save_bulk_answers auth breq now false s).2.1.questions
      = (save_bulk_answers auth breq now true s).2.1.questions) := by
  refine ⟨?_, ?_, ?_, ?_⟩
  · rw [save_question_answer, save_question_answer]
    split
    · rfl
    · split
      · rfl
      · split
        · rfl
        · rfl
  · rw [save_question_answer, save_question_answer]
    split
    · rfl
    · split
      · rfl
      · split
        · rfl
        · simp only
          rw [questions_update_user_summary, questions_update_user_summary]
  · rw [save_bulk_answers, save_bulk_answers]
    split
    · rfl
    · split
      · rfl
      · rcases hres : bulkLoop breq.user_id now s breq.answers [] []
          with ⟨res, tr⟩
        cases res with
        | error e => rfl
        | ok batch => rfl
  · rw [save_bulk_answers, save_bulk_answers]
    split
    · rfl
    · split
      · rfl
      · rcases hres : bulkLoop breq.user_id now s breq.answers [] []
          with ⟨res, tr⟩
        cases res with
        | error e => rfl
        | ok batch =>
          simp only
          rw [questions_update_user_summary, questions_update_user_summary]

/-- C7: `get_user_answers` (for the owner) returns the user's stored
answers sorted ascending by `question_id`, and reports `total_answers`
equal to the number of returned answers. -/
theorem get_user_answers_sorted_and_counted (uid : String) (s : Store) :
    ∃ l, (get_user_answers uid uid s).1
        = .ok ⟨true, "User answers retrieved successfully", uid, some l,
            some l.length, none, none⟩
      ∧ l.Pairwise (fun a b => a.question_id ≤ b.question_id)
      ∧ l.Perm (s.streamDocs uid) := by
  refine ⟨(s.streamDocs uid).mergeSort
    (fun a b => a.question_id ≤ b.question_id), ?_, ?_, ?_⟩
  · rw [get_user_answers, if_neg (by simp)]
  · have hp := @List.sorted_mergeSort AnswerDoc
      (fun a b : AnswerDoc => decide (a.question_id ≤ b.question_id))
      (fun a b c hab hbc => by
        simp only [decide_eq_true_eq] at hab hbc ⊢
        exact le_trans hab hbc)
      (fun a b => by
        simp only [Bool.or_eq_true, decide_eq_true_eq]
        exact le_total a.question_id b.question_id)
      (s.streamDocs uid)
    exact hp.imp (fun hab => of_decide_eq_true hab)
  · exact List.mergeSort_perm (s.streamDocs uid)
      (fun a b => a.question_id ≤ b.question_id)

/-- C6: credential resolution order with first match winning — a truthy
raw JSON blob in the first environment value, else a truthy base64 blob
in the second, else the service-account file (used only if it exists),
else a diagnostic failure; a successful initialization sets the
initialized flag, and any call with the flag already set is a no-op. -/
theorem initialize_firebase_resolution (env : FirebaseEnv) :
    (initialize_firebase env true = .ok (true, none))
    ∧ (∀ st src, initialize_firebase env false = .ok (st, src) → st = true)
    ∧ (∀ raw, env.serviceAccount = some raw → raw ≠ "" →
        env.parseRaw raw = .truthy →
        initialize_firebase env false = .ok (true, some .rawEnv))
    ∧ (∀ b64, (env.serviceAccount = none ∨ env.serviceAccount = some "") →
        env.serviceAccountB64 = some b64 → b64 ≠ "" →
        env.parseB64 b64 = .truthy →
        initialize_firebase env false = .ok (true, some .b64Env))
    ∧ ((env.serviceAccount = none ∨ env.serviceAccount = some "") →
       (env.serviceAccountB64 = none ∨ env.serviceAccountB64 = some "") →
        ∀ p, (match env.serviceAccountPath with
          | some q => q
          | none => "config/firebase-service-account.json") = p →
        (env.fileExists p = true →
          initialize_firebase env false = .ok (true, some (.credFile p)))
        ∧ (env.fileExists p = false →
          initialize_firebase env false
            = .error "No Firebase credentials found. Please set FIREBASE_SERVICE_ACCOUNT or FIREBASE_SERVICE_ACCOUNT_BASE64.")) := by
  refine ⟨rfl, ?_, ?_, ?_, ?_⟩
  · intro st src hok
    rw [initialize_firebase] at hok
    rw [if_neg (by simp)] at hok
    simp only at hok
    split at hok
    · split at hok
      · cases hok
      · cases hok
        rfl
      · split at hok
        · cases hok
          rfl
        · cases hok
    · split at hok
      · split at hok
        · cases hok
        · cases hok
          rfl
        · split at hok
          · cases hok
            rfl
          · cases hok
      · split at hok
        · cases hok
          rfl
        · cases hok
  · intro raw hraw hne hparse
    rw [initialize_firebase]
    rw [if_neg (by simp)]
    simp only [hraw, Option.getD_some]
    rw [if_pos (by simpa using hne)]
    rw [hparse]
  · intro b64 hraw hb64 hne hparse
    rw [initialize_firebase]
    rw [if_neg (by simp)]
    have hraw2 : env.serviceAccount.getD "" = "" := by
      rcases hraw with h | h <;> simp [h]
    simp only [hraw2, hb64, Option.getD_some]
    rw [if_neg (by simp)]
    rw [if_pos (by simpa using hne)]
    rw [hparse]
  · intro hraw hb64 p hp
    have hraw2 : env.serviceAccount.getD "" = "" := by
      rcases hraw with h | h <;> simp [h]
    have hb642 : env.serviceAccountB64.getD "" = "" := by
      rcases hb64 with h | h <;> simp [h]
    constructor
    · intro hfile
      rw [initialize_firebase]
      rw [if_neg (by simp)]
      simp only [hraw2, hb642]
      rw [if_neg (by simp), if_neg (by simp)]
      simp only [hp, hfile, if_true]
    · intro hfile
      rw [initialize_firebase]
      rw [if_neg (by simp)]
      simp only [hraw2, hb642]
      rw [if_neg (by simp), if_neg (by simp)]
      simp [hp, hfile]

/-- Witness for C6 at concrete environments exercising every branch. -/
theorem initialize_firebase_resolution_witness :
    (initialize_firebase
        ⟨some "{x}", some "eA==", some "p", fun _ => true, fun _ => .truthy,
          fun _ => .truthy⟩ true = .ok (true, none))
    ∧ (initialize_firebase
        ⟨some "{x}", some "eA==", some "p", fun _ => true, fun _ => .truthy,
          fun _ => .truthy⟩ false = .ok (true, some .rawEnv))
    ∧ (initialize_firebase
        ⟨none, some "eA==", some "p", fun _ => true, fun _ => .truthy,
          fun _ => .truthy⟩ false = .ok (true, some .b64Env))
    ∧ (initialize_firebase
        ⟨none, none, none, fun _ => true, fun _ => .truthy,
          fun _ => .truthy⟩ false
      = .ok (true, some (.credFile "config/firebase-service-account.json")))
    ∧ (initialize_firebase
        ⟨none, none, none, fun _ => false, fun _ => .truthy,
          fun _ => .truthy⟩ false
      = .error "No Firebase credentials found. Please set FIREBASE_SERVICE_ACCOUNT or FIREBASE_SERVICE_ACCOUNT_BASE64.") :=
  ⟨(initialize_firebase_resolution
      ⟨some "{x}", some "eA==", some "p", fun _ => true, fun _ => .truthy,
        fun _ => .truthy⟩).1,
   (initialize_firebase_resolution
      ⟨some "{x}", some "eA==", some "p", fun _ => true, fun _ => .truthy,
        fun _ => .truthy⟩).2.2.1 "{x}" rfl (by decide) rfl,
   (initialize_firebase_resolution
      ⟨none, some "eA==", some "p", fun _ => true, fun _ => .truthy,
        fun _ => .truthy⟩).2.2.2.1 "eA==" (Or.inl rfl) rfl (by decide) rfl,
   ((initialize_firebase_resolution
      ⟨none, none, none, fun _ => true, fun _ => .truthy,
        fun _ => .truthy⟩).2.2.2.2 (Or.inl rfl) (Or.inl rfl)
      "config/firebase-service-account.json" rfl).1 rfl,
   ((initialize_firebase_resolution
      ⟨none, none, none, fun _ => false, fun _ => .truthy,
        fun _ => .truthy⟩).2.2.2.2 (Or.inl rfl) (Or.inl rfl)
      "config/firebase-service-account.json" rfl).2 rfl⟩

end AphinitiAnswers
